import Mathlib

/-!
Link-layer wire constants and the SET receiver of feup-RC

A shallow embedding of two source files:

* `TP1/include/link_layer.h`: the wire-format macros (namespace `LinkLayer`);
* `read_noncanonical.c`: the macros, the byte-driven `switch` of the receive
  loop and the reply buffer (namespace `ReadNoncanonical`).

C `int` and `unsigned char` values are natural numbers; a value stored in an
`unsigned char` is reduced modulo 256 explicitly.  C integer literals keep
their radix: a literal written with a leading `0` is octal, so the C token
`01111110` is embedded as `0o1111110`.
-/

namespace LinkLayer

/-- Macro FLAG, link_layer.h line 51: `#define FLAG 0x7E`. -/
def FLAG : Nat := 0x7E

/-- Macro A_T, link_layer.h line 52: `#define A_T 0x03`. -/
def A_T : Nat := 0x03

/-- Macro A_R, link_layer.h line 53: `#define A_R 0x01`. -/
def A_R : Nat := 0x01

/-- Macro C, link_layer.h line 54: `#define C 0x03`. -/
def C : Nat := 0x03

/-- Macro C_UA, link_layer.h line 55: `#define C_UA 0x07`. -/
def C_UA : Nat := 0x07

/-- Macro DISC, link_layer.h line 58: `#define DISC 0x0B`. -/
def DISC : Nat := 0x0B

/-- Macro RR, link_layer.h line 59: `#define RR(n) 0x05 | (n << 7)`. -/
def RR (n : Nat) : Nat := 0x05 ||| (n <<< 7)

/-- Macro REJ, link_layer.h line 60: `#define REJ(n) 0x01 | (n << 7)`. -/
def REJ (n : Nat) : Nat := 0x01 ||| (n <<< 7)

/-- Macro C_INF, link_layer.h line 61: `#define C_INF(n) (n<<6)`. -/
def C_INF (n : Nat) : Nat := n <<< 6

end LinkLayer

namespace ReadNoncanonical

/-- Macro FALSE, read_noncanonical.c line 19. -/
def FALSE : Nat := 0

/-- Macro TRUE, read_noncanonical.c line 20. -/
def TRUE : Nat := 1

/-- Macro FLAG, read_noncanonical.c line 25: `#define FLAG 01111110`.
The leading zero makes the C literal octal. -/
def FLAG : Nat := 0o1111110

/-- Macro A, read_noncanonical.c line 26: `#define A    00000011` (octal). -/
def A : Nat := 0o0000011

/-- Macro C, read_noncanonical.c line 27: `#define C    00000011` (octal). -/
def C : Nat := 0o0000011

/-- Macro C_UA, read_noncanonical.c line 28: `#define C_UA   00000111` (octal). -/
def C_UA : Nat := 0o0000111

/-- Macro BCC, read_noncanonical.c line 29: `#define BCC  (A^C)`. -/
def BCC : Nat := A ^^^ C

/-- Macro START, line 31. -/
def START : Nat := 0

/-- Macro FLAG_RCV, line 32. -/
def FLAG_RCV : Nat := 1

/-- Macro A_RCV, line 33. -/
def A_RCV : Nat := 2

/-- Macro C_RCV, line 34. -/
def C_RCV : Nat := 3

/-- Macro BCC_OK, line 35. -/
def BCC_OK : Nat := 4

/-- Macro S_STOP, line 36. -/
def S_STOP : Nat := 5

/-- The two variables the receive loop updates: the local `int state`
(line 108) and the global `volatile int STOP` (line 38). -/
structure Machine where
  state : Nat
  STOP : Nat
  deriving DecidableEq, Repr

/-- Values on entry to the loop: `state = START` (line 108) and
`STOP = FALSE` (line 38). -/
def init : Machine := { state := START, STOP := FALSE }

/-- The `switch (state)` of lines 116-154, executed with the value `byte`
held by the `unsigned char byte` of that iteration.  In case BCC_OK the
assignment is `state = STOP` (line 147), which copies the current value of
the global `STOP` into `state`; in case S_STOP the assignment `STOP = true`
stores 1.  A `state` outside the six labels matches no case. -/
def step (m : Machine) (byte : Nat) : Machine :=
  if m.state = START then
    if byte = FLAG then { m with state := FLAG_RCV } else m
  else if m.state = FLAG_RCV then
    if byte = A then { m with state := A_RCV }
    else if byte ≠ FLAG then { m with state := START }
    else m
  else if m.state = A_RCV then
    if byte = C then { m with state := C_RCV }
    else if byte = FLAG then { m with state := FLAG_RCV }
    else { m with state := START }
  else if m.state = C_RCV then
    if byte = BCC then { m with state := BCC_OK }
    else if byte = FLAG then { m with state := FLAG_RCV }
    else { m with state := START }
  else if m.state = BCC_OK then
    if byte = FLAG then { m with state := m.STOP }
    else { m with state := START }
  else if m.state = S_STOP then
    { state := START, STOP := TRUE }
  else m

/-- One pass through the body of the `while` (lines 114-155): `bytes` is the
value returned by `read`, and the switch runs only when it is nonzero.
The call is `read(fd, byte, 1)`; whatever value the variable `byte` holds
when the switch runs is the parameter `byte` here. -/
def iteration (m : Machine) (bytes : Int) (byte : Nat) : Machine :=
  if bytes ≠ 0 then step m byte else m

/-- The `while (STOP == FALSE)` loop of lines 112-156 driven by the sequence
of bytes consumed, one per iteration in which `read` reported a byte
(iterations in which `read` returns 0 change nothing).  The guard is
evaluated before each byte; the loop stops consuming once `STOP` differs
from FALSE. -/
def receiveLoop : Machine → List Nat → Machine
  | m, [] => m
  | m, byte :: rest => if m.STOP = FALSE then receiveLoop (iteration m 1 byte) rest else m

/-- The loop guard `STOP == FALSE` has failed: control leaves the `while`
and reaches the code of lines 158-162 that writes the reply. -/
def loopEnded (m : Machine) : Bool := decide (m.STOP ≠ FALSE)

/-- Every element is a value an `unsigned char` can hold. -/
def validBytes (bs : List Nat) : Bool := bs.all (fun b => decide (b < 256))

/-- The reply buffer of line 161:
`unsigned char buf[5] = {FLAG, A, C_UA, BCC, FLAG};` each initialiser is
converted to `unsigned char`. -/
def buf : List Nat := [FLAG % 256, A % 256, C_UA % 256, BCC % 256, FLAG % 256]

end ReadNoncanonical

/-! ## Helper lemmas -/

namespace ReadNoncanonical

/-- The octal literals of read_noncanonical.c, evaluated. -/
theorem macro_values : FLAG = 299592 ∧ A = 9 ∧ C = 9 ∧ C_UA = 73 ∧ BCC = 0 := by
  refine ⟨?_, ?_, ?_, ?_, ?_⟩ <;> decide

/-- The value FLAG does not fit an `unsigned char`. -/
theorem byte_ne_FLAG {b : Nat} (hb : b < 256) : b ≠ FLAG := by
  have h : FLAG = 299592 := macro_values.1
  omega

/-- With the initial variables of the loop, the switch leaves them unchanged on
every byte value. -/
theorem step_init {b : Nat} (hb : b < 256) : step init b = init := by
  have h := byte_ne_FLAG hb
  simp [step, init, h]

/-- Bytes of a prefix are bytes. -/
theorem validBytes_take (bs : List Nat) (k : Nat) (h : validBytes bs = true) :
    validBytes (bs.take k) = true := by
  simp only [validBytes, List.all_eq_true] at h ⊢
  intro b hb
  exact h b (List.mem_of_mem_take hb)

/-- The loop started from the initial variables ends in them after any
sequence of bytes. -/
theorem receiveLoop_init (bs : List Nat) (h : validBytes bs = true) :
    receiveLoop init bs = init := by
  induction bs with
  | nil => rfl
  | cons b rest ih =>
    simp only [validBytes, List.all_cons, Bool.and_eq_true, decide_eq_true_eq] at h
    have hrest : validBytes rest = true := h.2
    have hstep : iteration init 1 b = init := by
      simp [iteration, step_init h.1]
    have hstop : init.STOP = FALSE := rfl
    simp only [receiveLoop, hstop, if_true, hstep]
    exact ih hrest

/-- Second defect of case BCC_OK, independent of the constants: were the
comparison with FLAG to succeed, line 147 stores the value of the variable
`STOP` (0 while the loop runs), not the label S_STOP. -/
theorem step_BCC_OK_on_FLAG : step { state := BCC_OK, STOP := FALSE } FLAG = init := by
  decide

end ReadNoncanonical

/-! ## Claims -/

/-- C1: the wire-format constants of link_layer.h are FLAG = 0x7E, command
address A_T = 0x03, response address A_R = 0x01, SET control C = 0x03, UA
control C_UA = 0x07 and DISC = 0x0B. -/
theorem LinkLayer.wire_constants :
    LinkLayer.FLAG = 0x7E ∧ LinkLayer.A_T = 0x03 ∧ LinkLayer.A_R = 0x01 ∧
    LinkLayer.C = 0x03 ∧ LinkLayer.C_UA = 0x07 ∧ LinkLayer.DISC = 0x0B := by
  refine ⟨?_, ?_, ?_, ?_, ?_, ?_⟩ <;> rfl

/-- C2: for a sequence bit n in {0,1}, RR(n) has low seven bits 0x05 and bit
7 equal to n (values 0x05, 0x85), REJ(n) has low seven bits 0x01 and bit 7
equal to n (values 0x01, 0x81), and C_INF(n) has bit 6 equal to n and every
other bit 0 (values 0x00, 0x40), so its low nibble is 0. -/
theorem LinkLayer.numbered_control_layout (n : Nat) (hn : n < 2) :
    (LinkLayer.RR n % 128 = 0x05 ∧ LinkLayer.RR n / 128 = n ∧
      LinkLayer.RR n = 0x05 + 0x80 * n) ∧
    (LinkLayer.REJ n % 128 = 0x01 ∧ LinkLayer.REJ n / 128 = n ∧
      LinkLayer.REJ n = 0x01 + 0x80 * n) ∧
    ((∀ i, (LinkLayer.C_INF n).testBit i = (decide (i = 6) && decide (n = 1))) ∧
      LinkLayer.C_INF n = 0x40 * n ∧ LinkLayer.C_INF n % 16 = 0) := by
  have h01 : n = 0 ∨ n = 1 := by omega
  rcases h01 with rfl | rfl
  · refine ⟨by decide, by decide, ?_, by decide, by decide⟩
    intro i
    simp [LinkLayer.C_INF]
  · refine ⟨by decide, by decide, ?_, by decide, by decide⟩
    intro i
    have h : LinkLayer.C_INF 1 = 2 ^ 6 := by decide
    rw [h, Nat.testBit_two_pow]
    simp [eq_comm]

/-- C2 at the concrete sequence bit n = 1. -/
theorem LinkLayer.numbered_control_layout_witness :
    1 < 2 ∧ LinkLayer.RR 1 = 0x85 ∧ LinkLayer.REJ 1 = 0x81 ∧ LinkLayer.C_INF 1 = 0x40 :=
  ⟨by decide,
   (LinkLayer.numbered_control_layout 1 (by decide)).1.2.2,
   (LinkLayer.numbered_control_layout 1 (by decide)).2.1.2.2,
   (LinkLayer.numbered_control_layout 1 (by decide)).2.2.2.1⟩

/-- C3: the claim gives the constants of the receiver the wire values FLAG = 0x7E,
A = 0x03, C = 0x03, C_UA = 0x07.  The macros of read_noncanonical.c are
octal literals: FLAG is 299592, A and C are 9 and C_UA is 73, none of them
the value link_layer.h defines. -/
theorem ReadNoncanonical.constants_are_octal :
    ReadNoncanonical.FLAG = 299592 ∧ ReadNoncanonical.A = 9 ∧
    ReadNoncanonical.C = 9 ∧ ReadNoncanonical.C_UA = 73 ∧
    ReadNoncanonical.FLAG ≠ LinkLayer.FLAG ∧ ReadNoncanonical.A ≠ LinkLayer.A_T ∧
    ReadNoncanonical.C ≠ LinkLayer.C ∧ ReadNoncanonical.C_UA ≠ LinkLayer.C_UA := by
  refine ⟨?_, ?_, ?_, ?_, ?_, ?_, ?_, ?_⟩ <;> decide

/-- C4: the claim sends START to FLAG_RCV on the flag byte 0x7E.  The code
compares the byte with 299592, so on 0x7E the state stays START. -/
theorem ReadNoncanonical.start_ignores_flag_byte :
    (ReadNoncanonical.step ReadNoncanonical.init 0x7E).state = ReadNoncanonical.START ∧
    (ReadNoncanonical.step ReadNoncanonical.init 0x7E).state ≠ ReadNoncanonical.FLAG_RCV := by
  decide

/-- C5: the claim sends FLAG_RCV to A_RCV on the address byte 0x03 and keeps
FLAG_RCV on the flag byte 0x7E.  The code goes to START on both, and goes to
A_RCV on byte 9 (octal 11) instead. -/
theorem ReadNoncanonical.flag_rcv_rejects_address_and_flag :
    (ReadNoncanonical.step { state := ReadNoncanonical.FLAG_RCV, STOP := 0 } 0x03).state
      = ReadNoncanonical.START ∧
    (ReadNoncanonical.step { state := ReadNoncanonical.FLAG_RCV, STOP := 0 } 0x7E).state
      = ReadNoncanonical.START ∧
    (ReadNoncanonical.step { state := ReadNoncanonical.FLAG_RCV, STOP := 0 } 9).state
      = ReadNoncanonical.A_RCV := by
  decide

/-- C6: from state C_RCV the next state is BCC_OK if and only if the byte
equals address XOR control, which is 0x03 XOR 0x03 = 0x00. -/
theorem ReadNoncanonical.c_rcv_header_check (stop b : Nat) :
    ((ReadNoncanonical.step { state := ReadNoncanonical.C_RCV, STOP := stop } b).state
        = ReadNoncanonical.BCC_OK ↔ b = ReadNoncanonical.A ^^^ ReadNoncanonical.C) ∧
    ReadNoncanonical.A ^^^ ReadNoncanonical.C = 0x03 ^^^ 0x03 ∧
    ReadNoncanonical.A ^^^ ReadNoncanonical.C = 0x00 := by
  have hv := ReadNoncanonical.macro_values
  have hB : ReadNoncanonical.A ^^^ ReadNoncanonical.C = 0 := hv.2.2.2.2
  refine ⟨?_, by decide, hB⟩
  rw [hB]
  have hbcc : ReadNoncanonical.BCC = 0 := hv.2.2.2.2
  have hsel : (3 : Nat) ≠ 0 ∧ (3 : Nat) ≠ 1 ∧ (3 : Nat) ≠ 2 := by decide
  simp only [ReadNoncanonical.step, ReadNoncanonical.C_RCV, ReadNoncanonical.START,
    ReadNoncanonical.FLAG_RCV, ReadNoncanonical.A_RCV, ReadNoncanonical.BCC_OK, hbcc,
    hsel.1, hsel.2.1, hsel.2.2, if_false, if_true]
  by_cases h0 : b = 0
  · simp [h0]
  · by_cases hF : b = ReadNoncanonical.FLAG
    · have hF0 : ReadNoncanonical.FLAG ≠ 0 := by decide
      simp [hF, hF0]
    · simp [h0, hF]

/-- C7: the claim resynchronises to FLAG_RCV on the flag byte 0x7E from A_RCV
and from C_RCV.  The code goes to START from both. -/
theorem ReadNoncanonical.no_resync_on_flag_byte :
    (ReadNoncanonical.step { state := ReadNoncanonical.A_RCV, STOP := 0 } 0x7E).state
      = ReadNoncanonical.START ∧
    (ReadNoncanonical.step { state := ReadNoncanonical.C_RCV, STOP := 0 } 0x7E).state
      = ReadNoncanonical.START := by
  decide

/-- C8: the claim completes the frame on the flag byte 0x7E from BCC_OK
(state S_STOP, then STOP true) and ends the loop on the SET frame
0x7E, 0x03, 0x03, 0x00, 0x7E.  The code goes from BCC_OK to START on 0x7E
with STOP unchanged, and after the whole SET frame the variables are the
initial ones and the loop has not ended. -/
theorem ReadNoncanonical.set_frame_does_not_end_loop :
    ReadNoncanonical.step { state := ReadNoncanonical.BCC_OK, STOP := 0 } 0x7E
      = { state := ReadNoncanonical.START, STOP := ReadNoncanonical.FALSE } ∧
    ReadNoncanonical.receiveLoop ReadNoncanonical.init [0x7E, 0x03, 0x03, 0x00, 0x7E]
      = ReadNoncanonical.init ∧
    ReadNoncanonical.loopEnded
      (ReadNoncanonical.receiveLoop ReadNoncanonical.init [0x7E, 0x03, 0x03, 0x00, 0x7E])
      = false := by
  decide

/-- C9: the claim makes the reply a well-formed UA frame: first and last byte
0x7E, fourth byte equal to second XOR third.  The buffer the code writes is
0x48, 0x09, 0x49, 0x00, 0x48: its fourth byte is 0 while second XOR third is
0x40, and its first and last bytes are 0x48. -/
theorem ReadNoncanonical.reply_is_not_a_UA_frame :
    ReadNoncanonical.buf = [0x48, 0x09, 0x49, 0x00, 0x48] ∧
    ReadNoncanonical.buf.length = 5 ∧
    ReadNoncanonical.buf.getD 3 0
      ≠ ReadNoncanonical.buf.getD 1 0 ^^^ ReadNoncanonical.buf.getD 2 0 ∧
    ReadNoncanonical.buf.getD 0 0 ≠ 0x7E ∧ ReadNoncanonical.buf.getD 4 0 ≠ 0x7E := by
  decide

/-- C10: for every finite sequence of bytes (each in 0..255) consumed from
state START with STOP = FALSE, after every byte the state is START and STOP
is FALSE; the state is never FLAG_RCV, A_RCV, C_RCV, BCC_OK or S_STOP, and
the loop never ends, so the code sending the reply is not reached. -/
theorem ReadNoncanonical.receive_loop_stays_at_start (bs : List Nat)
    (hbs : ReadNoncanonical.validBytes bs = true) (k : Nat) :
    ReadNoncanonical.receiveLoop ReadNoncanonical.init (bs.take k) = ReadNoncanonical.init ∧
    (ReadNoncanonical.receiveLoop ReadNoncanonical.init (bs.take k)).state
      = ReadNoncanonical.START ∧
    (ReadNoncanonical.receiveLoop ReadNoncanonical.init (bs.take k)).STOP
      = ReadNoncanonical.FALSE ∧
    (ReadNoncanonical.receiveLoop ReadNoncanonical.init (bs.take k)).state
      ∉ [ReadNoncanonical.FLAG_RCV, ReadNoncanonical.A_RCV, ReadNoncanonical.C_RCV,
          ReadNoncanonical.BCC_OK, ReadNoncanonical.S_STOP] ∧
    ReadNoncanonical.loopEnded
      (ReadNoncanonical.receiveLoop ReadNoncanonical.init (bs.take k)) = false := by
  have h := ReadNoncanonical.receiveLoop_init (bs.take k)
    (ReadNoncanonical.validBytes_take bs k hbs)
  rw [h]
  exact ⟨rfl, rfl, rfl, by decide, by decide⟩

/-- C10 on the well-formed SET frame 0x7E, 0x03, 0x03, 0x00, 0x7E, after all
five bytes. -/
theorem ReadNoncanonical.receive_loop_stays_at_start_witness :
    ReadNoncanonical.validBytes [0x7E, 0x03, 0x03, 0x00, 0x7E] = true ∧
    (ReadNoncanonical.receiveLoop ReadNoncanonical.init
        (List.take 5 [0x7E, 0x03, 0x03, 0x00, 0x7E])).state = ReadNoncanonical.START :=
  ⟨by decide,
   (ReadNoncanonical.receive_loop_stays_at_start [0x7E, 0x03, 0x03, 0x00, 0x7E]
      (by decide) 5).2.1⟩
